import Mathlib

/-!
Shallow embedding of `src/frontend/app_v2.js` (a Telegram mini-app client:
navigation stack, API fetch wrapper, and view renderers) together with
theorems checking the natural-language specification against it.

Modelling conventions:
* JS values flowing through the app are modelled by the shapes the code
  actually reads: parsed JSON bodies are either an object (of which we track
  exactly the fields the client accesses), an array of chat summaries, or an
  array of user records.  A property access that yields JS `undefined` is
  modelled by `Option.none`; interpolating `undefined` into a template string
  is modelled by the string "undefined" (`jsStr`).
* A JS statement that throws a `TypeError` (property access on
  `null`/`undefined`, `.map` on a non-array) aborts the enclosing async
  function; the embedding returns the state reached so far at such points.
* The mutable browser state (DOM header/content, `app.state`, alerts shown,
  and an instrumentation trace of fetches and input-disabling) is a single
  `AppState` threaded through every function.
* `JSON.stringify(a) === JSON.stringify(b)` on argument lists (arrays of
  strings) coincides with list equality, and is modelled as such.
-/

namespace App

/-- The `relation` object returned by `GET /api/profile/{uid}`. -/
structure Relation where
  is_me : Bool
  is_blocked : Bool
  is_friend : Bool
  sent_request : Bool
  received_request : Bool
deriving DecidableEq

/-- One element of the `messages` array of `GET /api/chat/{uid}`. -/
structure Msg where
  sender_uid : String
  text : String
deriving DecidableEq

/-- A user record as it appears in friend lists and request lists. -/
structure UserRec where
  username : String
  unique_id : String
deriving DecidableEq

/-- One element of the array returned by `GET /api/chats`. -/
structure ChatItem where
  partner_uid : String
  partner_username : Option String
  last_message_text : Option String
  unread_count : Nat
deriving DecidableEq

/-- A parsed JSON object; we track exactly the fields the client reads.
A missing field (JS `undefined`) is `none`. -/
structure JsonObj where
  detail : Option String
  username : Option String
  unique_id : Option String
  status : Option String
  relation : Option Relation
  messages : Option (List Msg)
  received : Option (List UserRec)
  sent : Option (List UserRec)
deriving DecidableEq

/-- A JSON object with every field absent. -/
def emptyObj : JsonObj := ⟨none, none, none, none, none, none, none, none⟩

/-- A parsed JSON body: an object, or one of the two array shapes the
client consumes. -/
inductive Json where
  | obj (o : JsonObj)
  | chatArr (chats : List ChatItem)
  | userArr (users : List UserRec)
deriving DecidableEq

/-- JS property access for our object fields: on a non-object value the
fields the client reads are all `undefined`, i.e. absent. -/
def Json.asObj : Json → JsonObj
  | Json.obj o => o
  | _ => emptyObj

/-- The `detail` property of a parsed error body (`undefined` unless the
body is an object carrying a string `detail`). -/
def Json.detailField : Json → Option String
  | Json.obj o => o.detail
  | _ => none

/-- An HTTP response body as seen by `response.json()`: either it parses,
or parsing throws. -/
inductive Body where
  | unparseable
  | parsed (j : Json)
deriving DecidableEq

/-- An HTTP response: `response.ok`, `response.status`, and the body. -/
structure Response where
  ok : Bool
  status : Nat
  body : Body
deriving DecidableEq

/-- An outbound request: method, path, and (for POSTs carrying `{text}`)
the text payload. -/
structure Request where
  method : String
  path : String
  payload : Option String
deriving DecidableEq

/-- The remote server, modelled as a function from requests to responses. -/
def Env : Type := Request → Response

def meReq : Request := ⟨"GET", "/api/me", none⟩
def chatsReq : Request := ⟨"GET", "/api/chats", none⟩
def chatReq (uid : String) : Request := ⟨"GET", "/api/chat/" ++ uid, none⟩
def messageReq (uid text : String) : Request := ⟨"POST", "/api/message/" ++ uid, some text⟩
def profileReq (uid : String) : Request := ⟨"GET", "/api/profile/" ++ uid, none⟩
def friendsReq : Request := ⟨"GET", "/api/friends", none⟩
def requestsReq : Request := ⟨"GET", "/api/requests", none⟩
def friendRequestReq (uid : String) : Request := ⟨"POST", "/api/friend_request/" ++ uid, none⟩
def actionReq (action uid : String) : Request := ⟨"POST", "/api/action/" ++ action ++ "/" ++ uid, none⟩

/-- The view functions of the app (`pageFunction` values passed to
`navigateTo`; function identity `===` is equality of this type). -/
inductive View where
  | mainMenuV
  | chatListV
  | chatV
  | profileV
  | friendsV
  | requestsV
deriving DecidableEq

/-- A navigation-stack entry `{ func, args }`. -/
structure Entry where
  func : View
  args : List String
deriving DecidableEq

/-- A rendered chat bubble: its text and whether it is tagged `sent`. -/
structure Bubble where
  text : String
  sent : Bool
deriving DecidableEq

/-- The chat view's messages area: still the loader, or filled bubbles. -/
inductive ChatArea where
  | loadingArea
  | bubbles (bs : List Bubble)
deriving DecidableEq

/-- What `app.content` currently displays. -/
inductive Content where
  | emptyC
  | loading
  | errorContent (title msg : String)
  | infoText (msg : String)
  | mainMenuContent (username uid : String)
  | chatListContent (items : List ChatItem)
  | chatContent (area : ChatArea) (inputDisabled : Bool)
  | profileContent (username status uid : String) (buttons : List String)
  | friendsContent (items : List UserRec)
  | requestsContent (received sent : List UserRec)
deriving DecidableEq

/-- Instrumentation events: outbound fetches and the chat input being
disabled, in the order they happen. -/
inductive Event where
  | fetch (r : Request)
  | disable
deriving DecidableEq

/-- The whole mutable state of the page: `app.state` (navigation stack and
current user), the DOM (header title and content), alerts shown via
`tg.showAlert`, a log of view-function invocations (`renders`), and the
instrumentation trace. -/
structure AppState where
  navigationStack : List Entry
  renders : List Entry
  currentUser : Option JsonObj
  header : String
  content : Content
  alerts : List String
  trace : List Event
deriving DecidableEq

def initialState : AppState := ⟨[], [], none, "", Content.emptyC, [], []⟩

/-- `renderHeader(title, _)` — we track the title text. -/
def setHeader (h : String) (s : AppState) : AppState := { s with header := h }

/-- `render(contentHtml, binder)` — replaces `app.content`. -/
def setContent (c : Content) (s : AppState) : AppState := { s with content := c }

/-- `tg.showAlert(msg)`. -/
def showAlert (m : String) (s : AppState) : AppState := { s with alerts := s.alerts ++ [m] }

/-- Record an outbound `fetch`. -/
def logFetch (r : Request) (s : AppState) : AppState := { s with trace := s.trace ++ [Event.fetch r] }

/-- `input.disabled = true` on the chat input (a no-op if the chat view is
not on screen, as the element would not exist). -/
def disableInput (s : AppState) : AppState :=
  { s with
    trace := s.trace ++ [Event.disable],
    content := match s.content with
               | Content.chatContent a _ => Content.chatContent a true
               | c => c }

/-- `chatMessagesDiv.innerHTML = messagesHtml` — fills the messages area of
the chat view. -/
def setChatMessages (bs : List Bubble) (s : AppState) : AppState :=
  { s with content := match s.content with
                      | Content.chatContent _ d => Content.chatContent (ChatArea.bubbles bs) d
                      | c => c }

/-- `renderErrorPage(title, message)`: header becomes "Error", content the
error block with the given title and message. -/
def renderErrorPage (title msg : String) (s : AppState) : AppState :=
  setContent (Content.errorContent title msg) (setHeader "Error" s)

/-- Interpolating a possibly-`undefined` JS string into a template. -/
def jsStr : Option String → String
  | some v => v
  | none => "undefined"

/-- `new Error(x).message` for `x` the `detail` property of the parsed
error body: the property's string if present, `""` if the property is
absent (`new Error(undefined)` has an empty message). -/
def jsErrorMessage (d : Option String) : String := d.getD ""

/-- The message of the JSON `SyntaxError` thrown by `response.json()` on an
unparseable body of a success response (exact text is host-defined). -/
def jsonSyntaxMessage : String := "Unexpected end of JSON input"

/-- The failure message built for a non-success response: the parsed body's
`detail` (via `new Error`), or the generic fallback
`HTTP error! Status: <code>` if the body does not parse. -/
def failMessage (resp : Response) : String :=
  match resp.body with
  | Body.parsed j => jsErrorMessage (Json.detailField j)
  | Body.unparseable => "HTTP error! Status: " ++ toString resp.status

/-- `apiFetch(endpoint, options)`: performs the request; on a non-success
status builds the failure message, renders the error page and re-raises;
on success returns `null` for 204 or the parsed body (a success body that
fails to parse also ends in the error page and a re-raise, via the outer
`catch`). -/
def apiFetch (env : Env) (r : Request) (s : AppState) : Except String (Option Json) × AppState :=
  let resp := env r
  let s := logFetch r s
  if !resp.ok then
    let msg := failMessage resp
    (Except.error msg, renderErrorPage "API Error" msg s)
  else if resp.status == 204 then
    (Except.ok none, s)
  else
    match resp.body with
    | Body.parsed j => (Except.ok (some j), s)
    | Body.unparseable =>
        (Except.error jsonSyntaxMessage, renderErrorPage "API Error" jsonSyntaxMessage s)

/-- The action-button set of the profile view, as built by `renderProfile`
from the fetched relation (lines 188–204 of the source): the `data-action`
identifiers, in rendering order. -/
def profileButtons (relation : Relation) : List String :=
  if relation.is_me then []
  else if relation.is_blocked then ["unblock"]
  else
    (if relation.is_friend then ["unfriend"]
     else if relation.sent_request then ["cancel_request"]
     else if relation.received_request then ["accept_friend", "decline_friend"]
     else ["add_friend"]) ++ ["block"]

/-- The bubble `renderChat` builds for a message: tagged `sent` iff
`msg.sender_uid === app.state.currentUser.unique_id`. -/
def toBubble (me : JsonObj) (m : Msg) : Bubble :=
  { text := m.text,
    sent := match me.unique_id with
            | some u => m.sender_uid == u
            | none => false }

/-- `renderMainMenu()`: header, loader, fetch `/api/me`, store it as the
current user and show the menu.  A `null` profile still overwrites
`currentUser` before `myProfile.username` throws. -/
def renderMainMenu (env : Env) (s : AppState) : AppState :=
  let s := setContent Content.loading (setHeader "Gadwa App" s)
  match apiFetch env meReq s with
  | (Except.error _, s) => s
  | (Except.ok none, s) => { s with currentUser := none }
  | (Except.ok (some j), s) =>
      let o := j.asObj
      setContent (Content.mainMenuContent (jsStr o.username) (jsStr o.unique_id))
        { s with currentUser := some o }

/-- `renderChatList()`: fetch `/api/chats`; an empty array renders the
explanatory placeholder, otherwise the clickable list.  A non-array body
makes `chats.map` throw, aborting the render. -/
def renderChatList (env : Env) (s : AppState) : AppState :=
  let s := setContent Content.loading (setHeader "Chats" s)
  match apiFetch env chatsReq s with
  | (Except.error _, s) => s
  | (Except.ok none, s) => s
  | (Except.ok (some j), s) =>
      match j with
      | Json.chatArr chats =>
          setContent (if chats.length == 0
                      then Content.infoText "You have no message history yet."
                      else Content.chatListContent chats) s
      | _ => s

/-- `getPartnerUsername(partnerUid)`: fetch the partner's profile and
return its `username`; any failure (including the `TypeError` on a `null`
profile) is caught and the raw UID returned instead. -/
def getPartnerUsername (env : Env) (partnerUid : String) (s : AppState) : String × AppState :=
  match apiFetch env (profileReq partnerUid) s with
  | (Except.ok (some j), s) => (jsStr (Json.asObj j).username, s)
  | (Except.ok none, s) => (partnerUid, s)
  | (Except.error _, s) => (partnerUid, s)

/-- `renderChat(partnerUid)`: resolve the partner name, draw the chat
skeleton, fetch the history and fill the bubbles.  A body without a
`messages` array, or a `null` `app.state.currentUser`, throws and aborts
after the skeleton. -/
def renderChat (env : Env) (partnerUid : String) (s : AppState) : AppState :=
  let p := getPartnerUsername env partnerUid s
  let s := setHeader ("Chat with " ++ p.1) p.2
  let s := setContent (Content.chatContent ChatArea.loadingArea false) s
  match apiFetch env (chatReq partnerUid) s with
  | (Except.error _, s) => s
  | (Except.ok none, s) => s
  | (Except.ok (some j), s) =>
      match (Json.asObj j).messages with
      | none => s
      | some msgs =>
          match s.currentUser with
          | none => s
          | some me => setChatMessages (msgs.map (toBubble me)) s

/-- `renderProfile(targetUid)`: fetch the profile, derive the action
buttons from its `relation` and display them.  A missing `relation`
(`relation.is_me` on `undefined`) throws and aborts. -/
def renderProfile (env : Env) (targetUid : String) (s : AppState) : AppState :=
  let s := setContent Content.loading (setHeader "Profile" s)
  match apiFetch env (profileReq targetUid) s with
  | (Except.error _, s) => s
  | (Except.ok none, s) => s
  | (Except.ok (some j), s) =>
      let o := j.asObj
      match o.relation with
      | none => s
      | some rel =>
          setContent
            (Content.profileContent (jsStr o.username) (jsStr o.status) (jsStr o.unique_id)
              (profileButtons rel)) s

/-- `renderFriendsList()`: fetch `/api/friends`; empty array renders the
placeholder, otherwise the clickable friend list. -/
def renderFriendsList (env : Env) (s : AppState) : AppState :=
  let s := setContent Content.loading (setHeader "Friends" s)
  match apiFetch env friendsReq s with
  | (Except.error _, s) => s
  | (Except.ok none, s) => s
  | (Except.ok (some j), s) =>
      match j with
      | Json.userArr friends =>
          setContent (if friends.length == 0
                      then Content.infoText "You haven't added any friends yet."
                      else Content.friendsContent friends) s
      | _ => s

/-- `renderRequests()`: fetch `/api/requests` and display the received and
sent lists.  If either list is missing, `list.length` throws and the
render aborts. -/
def renderRequests (env : Env) (s : AppState) : AppState :=
  let s := setContent Content.loading (setHeader "Friend Requests" s)
  match apiFetch env requestsReq s with
  | (Except.error _, s) => s
  | (Except.ok none, s) => s
  | (Except.ok (some j), s) =>
      let o := j.asObj
      match o.received, o.sent with
      | some recv, some snt => setContent (Content.requestsContent recv snt) s
      | _, _ => s

/-- Dispatch `pageFunction(...args)` for a stack entry: each view function
with the arity it takes (a missing argument is JS `undefined`). -/
def viewRun (env : Env) (v : View) (args : List String) (s : AppState) : AppState :=
  match v with
  | View.mainMenuV => renderMainMenu env s
  | View.chatListV => renderChatList env s
  | View.chatV => renderChat env (args.headD "undefined") s
  | View.profileV => renderProfile env (args.headD "undefined") s
  | View.friendsV => renderFriendsList env s
  | View.requestsV => renderRequests env s

/-- Push `{ func, args }` and invoke the view (the push is also logged as a
render invocation). -/
def pushAndRun (env : Env) (v : View) (args : List String) (s : AppState) : AppState :=
  viewRun env v args
    { s with navigationStack := s.navigationStack ++ [Entry.mk v args],
             renders := s.renders ++ [Entry.mk v args] }

/-- `navigateTo(pageFunction, ...args)`: if the current tail entry has the
same view function and `JSON.stringify`-equal arguments, do nothing;
otherwise push a new entry and invoke the view. -/
def navigateTo (env : Env) (pageFunction : View) (args : List String) (s : AppState) : AppState :=
  match s.navigationStack.getLast? with
  | some currentPage =>
      if currentPage.func = pageFunction ∧ currentPage.args = args then s
      else pushAndRun env pageFunction args s
  | none => pushAndRun env pageFunction args s

/-- `goBack()`: pop the tail entry; re-invoke the new tail's view with its
stored arguments, or fall back to navigating to the main menu when the
stack has emptied. -/
def goBack (env : Env) (s : AppState) : AppState :=
  let s := { s with navigationStack := s.navigationStack.dropLast }
  match s.navigationStack.getLast? with
  | some previousPage =>
      viewRun env previousPage.func previousPage.args
        { s with renders := s.renders ++ [previousPage] }
  | none => navigateTo env View.mainMenuV [] s

/-- A user-driven navigation operation. -/
inductive NavOp where
  | nav (v : View) (args : List String)
  | back
deriving DecidableEq

def navStep (env : Env) (s : AppState) (op : NavOp) : AppState :=
  match op with
  | NavOp.nav v args => navigateTo env v args s
  | NavOp.back => goBack env s

def runNavOps (env : Env) (ops : List NavOp) (s : AppState) : AppState :=
  ops.foldl (navStep env) s

/-- The initial load: `navigateTo(renderMainMenu)`. -/
def startup (env : Env) : AppState := navigateTo env View.mainMenuV [] initialState

/-- Character-level semantics of JS `String.prototype.trim()`: strip
whitespace from both ends. -/
def jsTrim (s : String) : String :=
  String.mk (((s.data.dropWhile Char.isWhitespace).reverse.dropWhile Char.isWhitespace).reverse)

/-- Semantics of the `/^\d{8}$/` test: exactly eight characters, all
digits. -/
def isEightDigits (u : String) : Bool :=
  u.data.length == 8 && u.data.all Char.isDigit

/-- The `handleSearch` prompt flow, as a function of the `prompt(...)`
result (`none` models a cancelled prompt): an 8-digit input navigates to
the profile view; a non-empty invalid input shows the validation alert;
empty or cancelled input does nothing. -/
def handleSearch (env : Env) (input : Option String) (s : AppState) : AppState :=
  match input with
  | none => s
  | some uid =>
      if uid ≠ "" ∧ isEightDigits uid = true then
        navigateTo env View.profileV [jsTrim uid] s
      else if uid ≠ "" then
        showAlert "Invalid UID format. Please enter 8 digits." s
      else s

/-- The chat send-button handler, as a function of the input's value: a
whitespace-only value does nothing; otherwise disable the input, POST the
message, and on success re-render the whole chat view. -/
def sendClick (env : Env) (partnerUid : String) (inputValue : String) (s : AppState) : AppState :=
  let text := jsTrim inputValue
  if text = "" then s
  else
    let s := disableInput s
    match apiFetch env (messageReq partnerUid text) s with
    | (Except.error _, s) => s
    | (Except.ok _, s) => renderChat env partnerUid s

/-- `action.replace('_', ' ')` as used in the success alert (each action
name has at most one underscore). -/
def actionLabel (action : String) : String := action.replace "_" " "

/-- The profile view's action-button handler: POST the action's endpoint,
then alert and re-render the same profile view. -/
def profileActionClick (env : Env) (targetUid action : String) (s : AppState) : AppState :=
  let req := if action = "add_friend" then friendRequestReq targetUid
             else actionReq action targetUid
  match apiFetch env req s with
  | (Except.error _, s) => s
  | (Except.ok _, s) =>
      renderProfile env targetUid
        (showAlert ("Action '" ++ actionLabel action ++ "' was successful!") s)

/-- The requests view's accept/decline/cancel handler: POST the action,
then alert and re-render the requests view. -/
def requestActionClick (env : Env) (action uid : String) (s : AppState) : AppState :=
  match apiFetch env (actionReq action uid) s with
  | (Except.error _, s) => s
  | (Except.ok _, s) => renderRequests env (showAlert "Request updated!" s)

/-- Whether an `apiFetch` outcome is a success (no exception raised). -/
def isOkResult : Except String (Option Json) → Bool
  | Except.ok _ => true
  | Except.error _ => false

/-- The relation-to-action-set state machine exactly as the specification
words it, in its stated precedence order (for comparison with the code's
`profileButtons`). -/
def specRelationActions (r : Relation) : List String :=
  if r.is_me then []
  else if r.is_blocked then ["unblock"]
  else if r.is_friend then ["unfriend", "block"]
  else if r.sent_request then ["cancel_request", "block"]
  else if r.received_request then ["accept_friend", "decline_friend", "block"]
  else ["add_friend", "block"]

/-- A sample server that answers every request with an empty 204 success. -/
def sampleEnv : Env := fun _ => ⟨true, 204, Body.unparseable⟩

/-- A sample server that fails every request with a bodyless 404. -/
def env404 : Env := fun _ => ⟨false, 404, Body.unparseable⟩

/-- A sample server that fails every request with a 404 whose body carries
`detail`. -/
def envDetail : Env := fun _ => ⟨false, 404, Body.parsed (Json.obj { emptyObj with detail := some "not found" })⟩

/-- A sample current-user object. -/
def sampleMe : JsonObj := { emptyObj with username := some "alice", unique_id := some "11111111" }

/-- A sample chat-history body with one message from the partner. -/
def sampleChatObj : JsonObj := { emptyObj with messages := some [Msg.mk "22222222" "hi"] }

/-- A sample server for the chat view: the partner-profile lookup fails,
the history fetch succeeds, message POSTs answer 204. -/
def chatEnv : Env := fun r =>
  if r.method = "POST" then ⟨true, 204, Body.unparseable⟩
  else if r.path = "/api/chat/22222222" then ⟨true, 200, Body.parsed (Json.obj sampleChatObj)⟩
  else ⟨false, 404, Body.unparseable⟩

/-- A sample state whose navigation stack holds exactly one entry. -/
def sampleStateOne : AppState :=
  { initialState with navigationStack := [Entry.mk View.profileV ["12345678"]] }

/-- A sample state representing an open chat with the sample user logged
in. -/
def sampleChatState : AppState :=
  { initialState with currentUser := some sampleMe,
                      content := Content.chatContent ChatArea.loadingArea false }

/-- The state part a view render never touches: the navigation stack, the
render log, and the alerts shown. -/
def navFrame (s : AppState) : List Entry × List Entry × List String :=
  (s.navigationStack, s.renders, s.alerts)

/-! ### Helper lemmas -/

theorem apiFetch_error_eq (env : Env) (r : Request) (s : AppState)
    (h : (env r).ok = false) :
    apiFetch env r s =
      (Except.error (failMessage (env r)),
       renderErrorPage "API Error" (failMessage (env r)) (logFetch r s)) := by
  unfold apiFetch
  simp [h]

theorem apiFetch_ok204_eq (env : Env) (r : Request) (s : AppState)
    (h : (env r).ok = true) (h2 : (env r).status = 204) :
    apiFetch env r s = (Except.ok none, logFetch r s) := by
  unfold apiFetch
  simp [h, h2]

theorem apiFetch_okParsed_eq (env : Env) (r : Request) (s : AppState) (j : Json)
    (h : (env r).ok = true) (h2 : (env r).status ≠ 204) (h3 : (env r).body = Body.parsed j) :
    apiFetch env r s = (Except.ok (some j), logFetch r s) := by
  unfold apiFetch
  simp [h, h2, h3]

theorem apiFetch_okUnparseable_eq (env : Env) (r : Request) (s : AppState)
    (h : (env r).ok = true) (h2 : (env r).status ≠ 204) (h3 : (env r).body = Body.unparseable) :
    apiFetch env r s =
      (Except.error jsonSyntaxMessage,
       renderErrorPage "API Error" jsonSyntaxMessage (logFetch r s)) := by
  unfold apiFetch
  simp [h, h2, h3]

/-- `apiFetch` never touches the navigation stack, the render log, the
current user or the alerts, and appends exactly one fetch to the trace. -/
theorem apiFetch_frame (env : Env) (r : Request) (s : AppState) :
    (apiFetch env r s).2.navigationStack = s.navigationStack ∧
    (apiFetch env r s).2.renders = s.renders ∧
    (apiFetch env r s).2.currentUser = s.currentUser ∧
    (apiFetch env r s).2.alerts = s.alerts ∧
    (apiFetch env r s).2.trace = s.trace ++ [Event.fetch r] := by
  by_cases h : (env r).ok = true
  · by_cases h2 : (env r).status = 204
    · rw [apiFetch_ok204_eq env r s h h2]
      simp [logFetch]
    · cases h3 : (env r).body with
      | unparseable =>
          rw [apiFetch_okUnparseable_eq env r s h h2 h3]
          simp [renderErrorPage, setContent, setHeader, logFetch]
      | parsed j =>
          rw [apiFetch_okParsed_eq env r s j h h2 h3]
          simp [logFetch]
  · rw [apiFetch_error_eq env r s (Bool.eq_false_iff.mpr h)]
    simp [renderErrorPage, setContent, setHeader, logFetch]

theorem navFrame_apiFetch (env : Env) (r : Request) (s : AppState) :
    navFrame (apiFetch env r s).2 = navFrame s := by
  have h := apiFetch_frame env r s
  simp [navFrame, h.1, h.2.1, h.2.2.2.1]

theorem navFrame_setContent (c : Content) (s : AppState) :
    navFrame (setContent c s) = navFrame s := rfl

theorem navFrame_setHeader (h : String) (s : AppState) :
    navFrame (setHeader h s) = navFrame s := rfl

theorem navFrame_setChatMessages (bs : List Bubble) (s : AppState) :
    navFrame (setChatMessages bs s) = navFrame s := rfl

theorem navFrame_disableInput (s : AppState) :
    navFrame (disableInput s) = navFrame s := rfl

theorem renderMainMenu_frame (env : Env) (s : AppState) :
    navFrame (renderMainMenu env s) = navFrame s := by
  unfold renderMainMenu
  dsimp only
  rcases heq : apiFetch env meReq (setContent Content.loading (setHeader "Gadwa App" s)) with ⟨res, s1⟩
  have hf := navFrame_apiFetch env meReq (setContent Content.loading (setHeader "Gadwa App" s))
  rw [heq, navFrame_setContent, navFrame_setHeader] at hf
  cases res with
  | error e => simpa using hf
  | ok v =>
      cases v with
      | none => simpa [navFrame] using hf
      | some j => simpa [navFrame, setContent] using hf

theorem renderChatList_frame (env : Env) (s : AppState) :
    navFrame (renderChatList env s) = navFrame s := by
  unfold renderChatList
  dsimp only
  rcases heq : apiFetch env chatsReq (setContent Content.loading (setHeader "Chats" s)) with ⟨res, s1⟩
  have hf := navFrame_apiFetch env chatsReq (setContent Content.loading (setHeader "Chats" s))
  rw [heq, navFrame_setContent, navFrame_setHeader] at hf
  cases res with
  | error e => simpa using hf
  | ok v =>
      cases v with
      | none => simpa using hf
      | some j => cases j <;> simp_all [navFrame_setContent]

theorem renderFriendsList_frame (env : Env) (s : AppState) :
    navFrame (renderFriendsList env s) = navFrame s := by
  unfold renderFriendsList
  dsimp only
  rcases heq : apiFetch env friendsReq (setContent Content.loading (setHeader "Friends" s)) with ⟨res, s1⟩
  have hf := navFrame_apiFetch env friendsReq (setContent Content.loading (setHeader "Friends" s))
  rw [heq, navFrame_setContent, navFrame_setHeader] at hf
  cases res with
  | error e => simpa using hf
  | ok v =>
      cases v with
      | none => simpa using hf
      | some j => cases j <;> simp_all [navFrame_setContent]

theorem renderRequests_frame (env : Env) (s : AppState) :
    navFrame (renderRequests env s) = navFrame s := by
  unfold renderRequests
  dsimp only
  rcases heq : apiFetch env requestsReq (setContent Content.loading (setHeader "Friend Requests" s)) with ⟨res, s1⟩
  have hf := navFrame_apiFetch env requestsReq (setContent Content.loading (setHeader "Friend Requests" s))
  rw [heq, navFrame_setContent, navFrame_setHeader] at hf
  cases res with
  | error e => simpa using hf
  | ok v =>
      cases v with
      | none => simpa using hf
      | some j =>
          cases hr : j.asObj.received <;> cases hs : j.asObj.sent <;>
            simp_all [navFrame_setContent]

theorem renderProfile_frame (env : Env) (uid : String) (s : AppState) :
    navFrame (renderProfile env uid s) = navFrame s := by
  unfold renderProfile
  dsimp only
  rcases heq : apiFetch env (profileReq uid) (setContent Content.loading (setHeader "Profile" s)) with ⟨res, s1⟩
  have hf := navFrame_apiFetch env (profileReq uid) (setContent Content.loading (setHeader "Profile" s))
  rw [heq, navFrame_setContent, navFrame_setHeader] at hf
  cases res with
  | error e => simpa using hf
  | ok v =>
      cases v with
      | none => simpa using hf
      | some j => cases hr : j.asObj.relation <;> simp_all [navFrame_setContent]

theorem getPartnerUsername_frame (env : Env) (uid : String) (s : AppState) :
    navFrame (getPartnerUsername env uid s).2 = navFrame s ∧
    (getPartnerUsername env uid s).2.currentUser = s.currentUser := by
  unfold getPartnerUsername
  rcases heq : apiFetch env (profileReq uid) s with ⟨res, s1⟩
  have hf := navFrame_apiFetch env (profileReq uid) s
  have hu := (apiFetch_frame env (profileReq uid) s).2.2.1
  rw [heq] at hf hu
  cases res with
  | error e => exact ⟨hf, hu⟩
  | ok v => cases v with
    | none => exact ⟨hf, hu⟩
    | some j => exact ⟨hf, hu⟩

theorem renderChat_frame (env : Env) (uid : String) (s : AppState) :
    navFrame (renderChat env uid s) = navFrame s := by
  unfold renderChat
  dsimp only
  rcases hp : getPartnerUsername env uid s with ⟨pname, s2⟩
  have hpf := (getPartnerUsername_frame env uid s).1
  rw [hp] at hpf
  rcases heq : apiFetch env (chatReq uid)
      (setContent (Content.chatContent ChatArea.loadingArea false)
        (setHeader ("Chat with " ++ pname) s2)) with ⟨res, s3⟩
  have hf := navFrame_apiFetch env (chatReq uid)
      (setContent (Content.chatContent ChatArea.loadingArea false)
        (setHeader ("Chat with " ++ pname) s2))
  rw [heq, navFrame_setContent, navFrame_setHeader, hpf] at hf
  cases res with
  | error e => simpa using hf
  | ok v =>
      cases v with
      | none => simpa using hf
      | some j =>
          dsimp only
          split
          · simpa using hf
          · split
            · simpa using hf
            · rw [navFrame_setChatMessages]; simpa using hf

theorem viewRun_frame (env : Env) (v : View) (args : List String) (s : AppState) :
    navFrame (viewRun env v args s) = navFrame s := by
  cases v with
  | mainMenuV => exact renderMainMenu_frame env s
  | chatListV => exact renderChatList_frame env s
  | chatV => exact renderChat_frame env (args.headD "undefined") s
  | profileV => exact renderProfile_frame env (args.headD "undefined") s
  | friendsV => exact renderFriendsList_frame env s
  | requestsV => exact renderRequests_frame env s

/-- Unpack a `navFrame` equality into its three component equalities. -/
theorem navFrame_proj {s t : AppState} (h : navFrame s = navFrame t) :
    s.navigationStack = t.navigationStack ∧ s.renders = t.renders ∧ s.alerts = t.alerts := by
  simpa [navFrame, Prod.mk.injEq] using h

theorem viewRun_stack (env : Env) (v : View) (args : List String) (s : AppState) :
    (viewRun env v args s).navigationStack = s.navigationStack :=
  (navFrame_proj (viewRun_frame env v args s)).1

theorem viewRun_renders (env : Env) (v : View) (args : List String) (s : AppState) :
    (viewRun env v args s).renders = s.renders :=
  (navFrame_proj (viewRun_frame env v args s)).2.1

theorem viewRun_alerts (env : Env) (v : View) (args : List String) (s : AppState) :
    (viewRun env v args s).alerts = s.alerts :=
  (navFrame_proj (viewRun_frame env v args s)).2.2

/-- `pushAndRun` pushes exactly one entry, logs exactly one render, and
shows no alert. -/
theorem pushAndRun_spec (env : Env) (v : View) (args : List String) (s : AppState) :
    (pushAndRun env v args s).navigationStack = s.navigationStack ++ [Entry.mk v args] ∧
    (pushAndRun env v args s).renders = s.renders ++ [Entry.mk v args] ∧
    (pushAndRun env v args s).alerts = s.alerts := by
  unfold pushAndRun
  refine ⟨?_, ?_, ?_⟩
  · rw [viewRun_stack]
  · rw [viewRun_renders]
  · rw [viewRun_alerts]

/-- `navigateTo` either leaves the state untouched (duplicate tail) or
pushes exactly one entry and logs one render. -/
theorem navigateTo_cases (env : Env) (v : View) (args : List String) (s : AppState) :
    navigateTo env v args s = s ∨
    ((navigateTo env v args s).navigationStack = s.navigationStack ++ [Entry.mk v args] ∧
     (navigateTo env v args s).renders = s.renders ++ [Entry.mk v args] ∧
     (navigateTo env v args s).alerts = s.alerts) := by
  unfold navigateTo
  cases hl : s.navigationStack.getLast? with
  | none => exact Or.inr (pushAndRun_spec env v args s)
  | some currentPage =>
      by_cases hdup : currentPage.func = v ∧ currentPage.args = args
      · simp [hdup]
      · simp only [hdup, if_false]
        exact Or.inr (pushAndRun_spec env v args s)

theorem navigateTo_stack_ne (env : Env) (v : View) (args : List String) (s : AppState)
    (h : s.navigationStack ≠ []) : (navigateTo env v args s).navigationStack ≠ [] := by
  rcases navigateTo_cases env v args s with heq | ⟨hs, _, _⟩
  · rw [heq]; exact h
  · rw [hs]; simp

/-- `navigateTo` on an empty stack always pushes its entry (and logs the
render). -/
theorem navigateTo_empty_full (env : Env) (v : View) (args : List String) (s : AppState)
    (h : s.navigationStack = []) :
    (navigateTo env v args s).navigationStack = [Entry.mk v args] ∧
    (navigateTo env v args s).renders = s.renders ++ [Entry.mk v args] := by
  unfold navigateTo
  rw [h]
  simp only [List.getLast?_nil]
  refine ⟨?_, (pushAndRun_spec env v args s).2.1⟩
  rw [(pushAndRun_spec env v args s).1, h]
  rfl

theorem navigateTo_empty_stack (env : Env) (v : View) (args : List String) (s : AppState)
    (h : s.navigationStack = []) :
    (navigateTo env v args s).navigationStack = [Entry.mk v args] :=
  (navigateTo_empty_full env v args s h).1

/-- `goBack` always leaves a non-empty stack: either an entry remains after
the pop, or the main-menu fallback pushes one. -/
theorem goBack_stack_ne (env : Env) (s : AppState) :
    (goBack env s).navigationStack ≠ [] := by
  unfold goBack
  dsimp only
  cases hl : s.navigationStack.dropLast.getLast? with
  | none =>
      rw [navigateTo_empty_stack env View.mainMenuV []
        { s with navigationStack := s.navigationStack.dropLast }
        (by simpa using hl)]
      simp
  | some previousPage =>
      rw [viewRun_stack]
      intro hc
      simp only at hc
      rw [hc] at hl
      simp at hl

/-- `goBack` on a stack holding exactly one entry: the pop empties the
stack, and the fallback pushes and renders the main menu. -/
theorem goBack_singleton (env : Env) (s : AppState) (e : Entry)
    (h : s.navigationStack = [e]) :
    (goBack env s).navigationStack = [Entry.mk View.mainMenuV []] ∧
    (goBack env s).renders = s.renders ++ [Entry.mk View.mainMenuV []] := by
  unfold goBack
  dsimp only
  rw [h]
  simp only [List.dropLast_single, List.getLast?_nil]
  exact navigateTo_empty_full env View.mainMenuV [] _ rfl

theorem runNavOps_stack_ne (env : Env) (ops : List NavOp) (s : AppState)
    (h : s.navigationStack ≠ []) :
    (runNavOps env ops s).navigationStack ≠ [] := by
  induction ops generalizing s with
  | nil => exact h
  | cons op rest ih =>
      cases op with
      | nav v args => exact ih (navigateTo env v args s) (navigateTo_stack_ne env v args s h)
      | back => exact ih (goBack env s) (goBack_stack_ne env s)

theorem startup_stack (env : Env) :
    (startup env).navigationStack = [Entry.mk View.mainMenuV []] :=
  navigateTo_empty_stack env View.mainMenuV [] initialState rfl

/-- A digit character is not whitespace. -/
theorem digit_not_whitespace (c : Char) (h : c.isDigit = true) : c.isWhitespace = false := by
  by_contra hw
  rw [Bool.not_eq_false] at hw
  unfold Char.isWhitespace at hw
  simp only [Bool.or_eq_true, decide_eq_true_eq] at hw
  rcases hw with ((rfl | rfl) | rfl) | rfl <;> exact absurd h (by decide)

theorem dropWhile_not_whitespace (l : List Char)
    (h : ∀ c ∈ l, c.isWhitespace = false) :
    l.dropWhile Char.isWhitespace = l := by
  cases l with
  | nil => rfl
  | cons a t => simp [List.dropWhile_cons, h a (List.mem_cons_self a t)]

/-- Trimming a string of digits is the identity. -/
theorem jsTrim_of_digits (u : String) (h : u.data.all Char.isDigit = true) :
    jsTrim u = u := by
  rcases u with ⟨l⟩
  simp only [List.all_eq_true] at h
  have hw : ∀ c ∈ l, c.isWhitespace = false := fun c hc => digit_not_whitespace c (h c hc)
  unfold jsTrim
  simp only [String.data]
  rw [dropWhile_not_whitespace l hw,
      dropWhile_not_whitespace l.reverse (fun c hc => hw c (List.mem_reverse.mp hc)),
      List.reverse_reverse]

theorem isEightDigits_trim (u : String) (h : isEightDigits u = true) : jsTrim u = u := by
  unfold isEightDigits at h
  rw [Bool.and_eq_true] at h
  exact jsTrim_of_digits u h.2

theorem isEightDigits_ne_empty (u : String) (h : isEightDigits u = true) : u ≠ "" := by
  intro hc
  subst hc
  exact absurd h (by decide)

/-- `renderChat` on a successfully fetched history: the final display is
the chat header with the resolved partner name and exactly the fetched
messages as bubbles, with the input enabled. -/
theorem renderChat_ok (env : Env) (uid : String) (s : AppState) (me o : JsonObj) (msgs : List Msg)
    (huser : s.currentUser = some me)
    (h1 : (env (chatReq uid)).ok = true)
    (h2 : (env (chatReq uid)).status ≠ 204)
    (h3 : (env (chatReq uid)).body = Body.parsed (Json.obj o))
    (hm : o.messages = some msgs) :
    (renderChat env uid s).content =
      Content.chatContent (ChatArea.bubbles (msgs.map (toBubble me))) false ∧
    (renderChat env uid s).header = "Chat with " ++ (getPartnerUsername env uid s).1 := by
  unfold renderChat
  dsimp only
  rcases hp : getPartnerUsername env uid s with ⟨pname, s2⟩
  have hu := (getPartnerUsername_frame env uid s).2
  rw [hp] at hu
  rw [apiFetch_okParsed_eq env (chatReq uid) _ (Json.obj o) h1 h2 h3]
  dsimp only [Json.asObj]
  rw [hm]
  dsimp only
  have hcur : (logFetch (chatReq uid)
      (setContent (Content.chatContent ChatArea.loadingArea false)
        (setHeader ("Chat with " ++ pname) s2))).currentUser = some me := by
    show s2.currentUser = some me
    rw [hu]
    exact huser
  rw [hcur]
  dsimp only
  constructor
  · simp [setChatMessages, logFetch, setContent, setHeader]
  · simp [setChatMessages, logFetch, setContent, setHeader]

theorem navigateTo_alerts (env : Env) (v : View) (args : List String) (s : AppState) :
    (navigateTo env v args s).alerts = s.alerts := by
  rcases navigateTo_cases env v args s with heq | hp
  · rw [heq]
  · exact hp.2.2

theorem renderChat_stack (env : Env) (uid : String) (s : AppState) :
    (renderChat env uid s).navigationStack = s.navigationStack :=
  (navFrame_proj (renderChat_frame env uid s)).1

theorem renderProfile_stack (env : Env) (uid : String) (s : AppState) :
    (renderProfile env uid s).navigationStack = s.navigationStack :=
  (navFrame_proj (renderProfile_frame env uid s)).1

theorem renderRequests_stack (env : Env) (s : AppState) :
    (renderRequests env s).navigationStack = s.navigationStack :=
  (navFrame_proj (renderRequests_frame env s)).1

theorem apiFetch_stack (env : Env) (r : Request) (s : AppState) :
    (apiFetch env r s).2.navigationStack = s.navigationStack :=
  (apiFetch_frame env r s).1

/-! ### Claim theorems -/

/-- C1: calling `navigateTo` twice consecutively with the same view
function and (deeply) equal arguments, from any state whose current tail is
not already that page, performs exactly one stack push and one render
invocation, and the second call is a no-op leaving stack and display
untouched. -/
theorem navigateTo_idempotent_C1 (env : Env) (v : View) (args : List String) (s : AppState)
    (h : s.navigationStack.getLast? ≠ some (Entry.mk v args)) :
    (navigateTo env v args s).navigationStack = s.navigationStack ++ [Entry.mk v args] ∧
    (navigateTo env v args s).renders = s.renders ++ [Entry.mk v args] ∧
    navigateTo env v args (navigateTo env v args s) = navigateTo env v args s := by
  have key : navigateTo env v args s = pushAndRun env v args s := by
    unfold navigateTo
    cases hl : s.navigationStack.getLast? with
    | none => rfl
    | some cur =>
        have hne : ¬(cur.func = v ∧ cur.args = args) := by
          rintro ⟨hf, ha⟩
          apply h
          rw [hl]
          cases cur
          simp only at hf ha
          rw [hf, ha]
        simp [hne]
  have hp := pushAndRun_spec env v args s
  have hstack : (navigateTo env v args s).navigationStack = s.navigationStack ++ [Entry.mk v args] := by
    rw [key]; exact hp.1
  have hrend : (navigateTo env v args s).renders = s.renders ++ [Entry.mk v args] := by
    rw [key]; exact hp.2.1
  refine ⟨hstack, hrend, ?_⟩
  generalize hgen : navigateTo env v args s = s1 at hstack ⊢
  have hl2 : s1.navigationStack.getLast? = some (Entry.mk v args) := by
    rw [hstack]; exact List.getLast?_concat _
  unfold navigateTo
  rw [hl2]
  simp

/-- Witness for C1 at a concrete state and page. -/
theorem navigateTo_idempotent_C1_witness :
    (startup sampleEnv).navigationStack.getLast? ≠ some (Entry.mk View.chatListV []) ∧
    ((navigateTo sampleEnv View.chatListV [] (startup sampleEnv)).navigationStack =
        (startup sampleEnv).navigationStack ++ [Entry.mk View.chatListV []] ∧
      (navigateTo sampleEnv View.chatListV [] (startup sampleEnv)).renders =
        (startup sampleEnv).renders ++ [Entry.mk View.chatListV []] ∧
      navigateTo sampleEnv View.chatListV [] (navigateTo sampleEnv View.chatListV [] (startup sampleEnv)) =
        navigateTo sampleEnv View.chatListV [] (startup sampleEnv)) :=
  ⟨by decide, navigateTo_idempotent_C1 sampleEnv View.chatListV [] (startup sampleEnv) (by decide)⟩

/-- C2: after startup pushes the main menu, every sequence of `navigateTo`
and `goBack` operations leaves the navigation stack non-empty; in
particular `goBack` on a stack of size 1 pops the sole entry and then
navigates to the main menu, leaving the stack non-empty. -/
theorem stack_invariant_C2 :
    (∀ (env : Env) (ops : List NavOp),
      (runNavOps env ops (startup env)).navigationStack ≠ []) ∧
    (∀ (env : Env) (s : AppState) (e : Entry), s.navigationStack = [e] →
      (goBack env s).navigationStack = [Entry.mk View.mainMenuV []] ∧
      (goBack env s).renders = s.renders ++ [Entry.mk View.mainMenuV []]) := by
  constructor
  · intro env ops
    apply runNavOps_stack_ne
    rw [startup_stack]
    simp
  · intro env s e h
    exact goBack_singleton env s e h

/-- Witness for C2: a concrete operation sequence and a concrete size-1
stack. -/
theorem stack_invariant_C2_witness :
    (runNavOps sampleEnv
        [NavOp.back, NavOp.nav View.chatListV [], NavOp.back, NavOp.back]
        (startup sampleEnv)).navigationStack ≠ [] ∧
    sampleStateOne.navigationStack = [Entry.mk View.profileV ["12345678"]] ∧
    (goBack sampleEnv sampleStateOne).navigationStack = [Entry.mk View.mainMenuV []] :=
  ⟨stack_invariant_C2.1 sampleEnv [NavOp.back, NavOp.nav View.chatListV [], NavOp.back, NavOp.back],
   rfl,
   (stack_invariant_C2.2 sampleEnv sampleStateOne (Entry.mk View.profileV ["12345678"]) rfl).1⟩

/-- C3: the profile view's action-button set is exactly the spec's
relation state machine, in its stated precedence order (self, blocked,
friend, request-sent, request-received, none). -/
theorem profile_actions_C3 : ∀ r : Relation, profileButtons r = specRelationActions r := by
  rintro ⟨a, b, c, d, e⟩
  cases a <;> cases b <;> cases c <;> cases d <;> cases e <;> rfl

/-- C4 counterexample: a 404 with an unparseable body produces the message
"HTTP error! Status: 404", not the spec's literal "HTTP error,
status=404". -/
theorem apiFetch_generic_msg_counterexample_C4 :
    (apiFetch env404 meReq initialState).1 = Except.error "HTTP error! Status: 404" ∧
    "HTTP error! Status: 404" ≠ "HTTP error, status=404" := by
  constructor
  · rfl
  · decide

/-- C4 (amended): an API call whose response has a non-success status
fails with the body's `detail` when the body parses, and otherwise with
the generic "HTTP error! Status: <code>"; the display becomes the
full-screen error page titled "API Error" with that message, the error is
re-raised, and a triggering view (here the profile view) renders nothing
further after the failure. -/
theorem apiFetch_error_path_C4 (env : Env) (r : Request) (s : AppState) (uid : String)
    (hok : (env r).ok = false) :
    (∀ j d, (env r).body = Body.parsed j → Json.detailField j = some d →
      (apiFetch env r s).1 = Except.error d ∧
      (apiFetch env r s).2.content = Content.errorContent "API Error" d) ∧
    ((env r).body = Body.unparseable →
      (apiFetch env r s).1 = Except.error ("HTTP error! Status: " ++ toString (env r).status) ∧
      (apiFetch env r s).2.content =
        Content.errorContent "API Error" ("HTTP error! Status: " ++ toString (env r).status)) ∧
    ((env (profileReq uid)).ok = false →
      (renderProfile env uid s).content =
        Content.errorContent "API Error" (failMessage (env (profileReq uid)))) := by
  have he := apiFetch_error_eq env r s hok
  refine ⟨?_, ?_, ?_⟩
  · intro j d hb hd
    have hmsg : failMessage (env r) = d := by
      unfold failMessage
      rw [hb]
      show jsErrorMessage (Json.detailField j) = d
      rw [hd]
      rfl
    rw [he, hmsg]
    exact ⟨rfl, rfl⟩
  · intro hb
    have hmsg : failMessage (env r) = "HTTP error! Status: " ++ toString (env r).status := by
      unfold failMessage
      rw [hb]
    rw [he, hmsg]
    exact ⟨rfl, rfl⟩
  · intro hfail
    have he2 := apiFetch_error_eq env (profileReq uid)
      (setContent Content.loading (setHeader "Profile" s)) hfail
    unfold renderProfile
    dsimp only
    rw [he2]
    rfl

/-- Witness for C4 (amended): concrete 404s with and without a parseable
`detail` body. -/
theorem apiFetch_error_path_C4_witness :
    (env404 meReq).ok = false ∧
    ((apiFetch env404 meReq initialState).1 = Except.error ("HTTP error! Status: " ++ toString (env404 meReq).status) ∧
      (apiFetch env404 meReq initialState).2.content =
        Content.errorContent "API Error" ("HTTP error! Status: " ++ toString (env404 meReq).status)) ∧
    (envDetail meReq).ok = false ∧
    ((apiFetch envDetail meReq initialState).1 = Except.error "not found" ∧
      (apiFetch envDetail meReq initialState).2.content = Content.errorContent "API Error" "not found") ∧
    (renderProfile env404 "12345678" initialState).content =
      Content.errorContent "API Error" (failMessage (env404 (profileReq "12345678"))) :=
  ⟨rfl,
   (apiFetch_error_path_C4 env404 meReq initialState "12345678" rfl).2.1 rfl,
   rfl,
   (apiFetch_error_path_C4 envDetail meReq initialState "12345678" rfl).1
     (Json.obj { emptyObj with detail := some "not found" }) "not found" rfl rfl,
   (apiFetch_error_path_C4 env404 meReq initialState "12345678" rfl).2.2 rfl⟩

/-- C5: the search action partitions the prompt input three ways: an
exactly-8-digit input navigates to the profile view for that identifier
(no alert); a non-empty non-8-digit input shows the validation alert and
does not navigate; an empty or cancelled input does nothing. -/
theorem handleSearch_partition_C5 (env : Env) (s : AppState) (uid : String) :
    (isEightDigits uid = true →
      handleSearch env (some uid) s = navigateTo env View.profileV [uid] s ∧
      (handleSearch env (some uid) s).alerts = s.alerts) ∧
    (uid ≠ "" → isEightDigits uid = false →
      handleSearch env (some uid) s = showAlert "Invalid UID format. Please enter 8 digits." s ∧
      (handleSearch env (some uid) s).navigationStack = s.navigationStack ∧
      (handleSearch env (some uid) s).alerts =
        s.alerts ++ ["Invalid UID format. Please enter 8 digits."]) ∧
    handleSearch env none s = s ∧
    handleSearch env (some "") s = s := by
  refine ⟨?_, ?_, rfl, ?_⟩
  · intro h8
    have hne := isEightDigits_ne_empty uid h8
    have heq : handleSearch env (some uid) s = navigateTo env View.profileV [uid] s := by
      unfold handleSearch
      dsimp only
      rw [if_pos ⟨hne, h8⟩, isEightDigits_trim uid h8]
    refine ⟨heq, ?_⟩
    rw [heq]
    exact navigateTo_alerts env View.profileV [uid] s
  · intro hne h8
    have heq : handleSearch env (some uid) s =
        showAlert "Invalid UID format. Please enter 8 digits." s := by
      unfold handleSearch
      dsimp only
      rw [if_neg (by rintro ⟨-, hh⟩; rw [h8] at hh; exact Bool.false_ne_true hh), if_pos hne]
    refine ⟨heq, ?_, ?_⟩ <;> rw [heq] <;> rfl
  · unfold handleSearch
    dsimp only
    rw [if_neg (by rintro ⟨hh, -⟩; exact hh rfl), if_neg (fun hh => hh rfl)]

/-- Witness for C5 at the three concrete inputs of the spec. -/
theorem handleSearch_partition_C5_witness :
    (isEightDigits "12345678" = true ∧
      handleSearch sampleEnv (some "12345678") initialState =
        navigateTo sampleEnv View.profileV ["12345678"] initialState) ∧
    ("1234" ≠ "" ∧ isEightDigits "1234" = false ∧
      handleSearch sampleEnv (some "1234") initialState =
        showAlert "Invalid UID format. Please enter 8 digits." initialState ∧
      (handleSearch sampleEnv (some "1234") initialState).navigationStack =
        initialState.navigationStack) ∧
    handleSearch sampleEnv none initialState = initialState ∧
    handleSearch sampleEnv (some "") initialState = initialState :=
  ⟨⟨by decide,
    ((handleSearch_partition_C5 sampleEnv initialState "12345678").1 (by decide)).1⟩,
   ⟨by decide, by decide,
    ((handleSearch_partition_C5 sampleEnv initialState "1234").2.1 (by decide) (by decide)).1,
    ((handleSearch_partition_C5 sampleEnv initialState "1234").2.1 (by decide) (by decide)).2.1⟩,
   (handleSearch_partition_C5 sampleEnv initialState "x").2.2.1,
   (handleSearch_partition_C5 sampleEnv initialState "x").2.2.2⟩

/-- C6: an API call with a successful response returns `null` for a
body-less 204 no-content response, and otherwise returns the parsed body;
in both cases the display is untouched (only the fetch is logged). -/
theorem apiFetch_success_C6 (env : Env) (r : Request) (s : AppState)
    (hok : (env r).ok = true) :
    ((env r).status = 204 →
      (apiFetch env r s).1 = Except.ok none ∧ (apiFetch env r s).2 = logFetch r s) ∧
    (∀ j, (env r).status ≠ 204 → (env r).body = Body.parsed j →
      (apiFetch env r s).1 = Except.ok (some j) ∧ (apiFetch env r s).2 = logFetch r s) := by
  constructor
  · intro h204
    rw [apiFetch_ok204_eq env r s hok h204]
    exact ⟨rfl, rfl⟩
  · intro j hne hb
    rw [apiFetch_okParsed_eq env r s j hok hne hb]
    exact ⟨rfl, rfl⟩

/-- Witness for C6: a concrete 204 response and a concrete parsed 200
response. -/
theorem apiFetch_success_C6_witness :
    (sampleEnv meReq).ok = true ∧ (sampleEnv meReq).status = 204 ∧
    (apiFetch sampleEnv meReq initialState).1 = Except.ok none ∧
    (chatEnv (chatReq "22222222")).ok = true ∧
    (apiFetch chatEnv (chatReq "22222222") initialState).1 =
      Except.ok (some (Json.obj sampleChatObj)) :=
  ⟨rfl, rfl,
   ((apiFetch_success_C6 sampleEnv meReq initialState rfl).1 rfl).1,
   by decide,
   ((apiFetch_success_C6 chatEnv (chatReq "22222222") initialState (by decide)).2
      (Json.obj sampleChatObj) (by decide) (by decide)).1⟩

/-- C7: when the partner profile lookup fails, the chat view uses the raw
partner identifier as the display name and swallows the failure: the chat
view still renders its header and the fetched messages, and no error is
propagated. -/
theorem chat_partner_fallback_C7 (env : Env) (uid : String) (s : AppState)
    (me o : JsonObj) (msgs : List Msg)
    (hfail : (env (profileReq uid)).ok = false)
    (huser : s.currentUser = some me)
    (h1 : (env (chatReq uid)).ok = true)
    (h2 : (env (chatReq uid)).status ≠ 204)
    (h3 : (env (chatReq uid)).body = Body.parsed (Json.obj o))
    (hm : o.messages = some msgs) :
    (getPartnerUsername env uid s).1 = uid ∧
    (renderChat env uid s).header = "Chat with " ++ uid ∧
    (renderChat env uid s).content =
      Content.chatContent (ChatArea.bubbles (msgs.map (toBubble me))) false := by
  have hg : (getPartnerUsername env uid s).1 = uid := by
    unfold getPartnerUsername
    rw [apiFetch_error_eq env (profileReq uid) s hfail]
  have hro := renderChat_ok env uid s me o msgs huser h1 h2 h3 hm
  refine ⟨hg, ?_, hro.1⟩
  rw [hro.2, hg]

/-- Witness for C7: a concrete server whose profile endpoint fails while
the history endpoint succeeds. -/
theorem chat_partner_fallback_C7_witness :
    (chatEnv (profileReq "22222222")).ok = false ∧
    sampleChatState.currentUser = some sampleMe ∧
    (getPartnerUsername chatEnv "22222222" sampleChatState).1 = "22222222" ∧
    (renderChat chatEnv "22222222" sampleChatState).header = "Chat with " ++ "22222222" ∧
    (renderChat chatEnv "22222222" sampleChatState).content =
      Content.chatContent
        (ChatArea.bubbles (List.map (toBubble sampleMe) [Msg.mk "22222222" "hi"])) false :=
  ⟨by decide, rfl,
   chat_partner_fallback_C7 chatEnv "22222222" sampleChatState sampleMe sampleChatObj
     [Msg.mk "22222222" "hi"] (by decide) rfl (by decide) (by decide) (by decide) rfl⟩

/-- C8: with a non-empty trimmed message text, the send handler disables
the input, then performs the POST, and on success re-renders the whole
chat view from the post-POST state (a fresh fetch); the displayed message
list is exactly what the fresh fetch returns, with no local append. -/
theorem sendClick_flow_C8 (env : Env) (uid t : String) (s : AppState)
    (hne : jsTrim t ≠ "")
    (hpost : isOkResult (apiFetch env (messageReq uid (jsTrim t)) (disableInput s)).1 = true) :
    sendClick env uid t s =
      renderChat env uid (apiFetch env (messageReq uid (jsTrim t)) (disableInput s)).2 ∧
    (apiFetch env (messageReq uid (jsTrim t)) (disableInput s)).2.trace =
      s.trace ++ [Event.disable, Event.fetch (messageReq uid (jsTrim t))] ∧
    (∀ me o msgs, s.currentUser = some me →
      (env (chatReq uid)).ok = true → (env (chatReq uid)).status ≠ 204 →
      (env (chatReq uid)).body = Body.parsed (Json.obj o) → o.messages = some msgs →
      (sendClick env uid t s).content =
        Content.chatContent (ChatArea.bubbles (msgs.map (toBubble me))) false) := by
  have hmain : sendClick env uid t s =
      renderChat env uid (apiFetch env (messageReq uid (jsTrim t)) (disableInput s)).2 := by
    unfold sendClick
    dsimp only
    rw [if_neg hne]
    rcases hres : apiFetch env (messageReq uid (jsTrim t)) (disableInput s) with ⟨res, s2⟩
    rw [hres] at hpost
    cases res with
    | error e => exact absurd hpost (by simp [isOkResult])
    | ok v => rfl
  refine ⟨hmain, ?_, ?_⟩
  · have hf := (apiFetch_frame env (messageReq uid (jsTrim t)) (disableInput s)).2.2.2.2
    rw [hf]
    simp [disableInput]
  · intro me o msgs huser h1 h2 h3 hm
    rw [hmain]
    have hcur : (apiFetch env (messageReq uid (jsTrim t)) (disableInput s)).2.currentUser = some me := by
      rw [(apiFetch_frame env (messageReq uid (jsTrim t)) (disableInput s)).2.2.1]
      simp only [disableInput]
      exact huser
    exact (renderChat_ok env uid _ me o msgs hcur h1 h2 h3 hm).1

/-- Witness for C8: a concrete send of " hello " in an open chat. -/
theorem sendClick_flow_C8_witness :
    jsTrim " hello " ≠ "" ∧
    isOkResult (apiFetch chatEnv (messageReq "22222222" (jsTrim " hello "))
      (disableInput sampleChatState)).1 = true ∧
    sendClick chatEnv "22222222" " hello " sampleChatState =
      renderChat chatEnv "22222222"
        (apiFetch chatEnv (messageReq "22222222" (jsTrim " hello "))
          (disableInput sampleChatState)).2 ∧
    (sendClick chatEnv "22222222" " hello " sampleChatState).content =
      Content.chatContent
        (ChatArea.bubbles (List.map (toBubble sampleMe) [Msg.mk "22222222" "hi"])) false :=
  ⟨by decide, by decide,
   (sendClick_flow_C8 chatEnv "22222222" " hello " sampleChatState (by decide) (by decide)).1,
   (sendClick_flow_C8 chatEnv "22222222" " hello " sampleChatState (by decide) (by decide)).2.2
     sampleMe sampleChatObj [Msg.mk "22222222" "hi"] rfl (by decide) (by decide) (by decide) rfl⟩

/-- C9: the in-place re-renders of the three mutating actions (chat send,
profile relation action, requests accept/decline/cancel) invoke the view
functions directly and leave the navigation stack — its length and every
entry — unchanged. -/
theorem mutating_frame_C9 (env : Env) (uid t targetUid action uid2 action2 : String)
    (s : AppState) :
    (sendClick env uid t s).navigationStack = s.navigationStack ∧
    (profileActionClick env targetUid action s).navigationStack = s.navigationStack ∧
    (requestActionClick env action2 uid2 s).navigationStack = s.navigationStack := by
  refine ⟨?_, ?_, ?_⟩
  · unfold sendClick
    dsimp only
    split
    · rfl
    · rcases hres : apiFetch env (messageReq uid (jsTrim t)) (disableInput s) with ⟨res, s2⟩
      have hst := apiFetch_stack env (messageReq uid (jsTrim t)) (disableInput s)
      rw [hres] at hst
      cases res with
      | error e => simpa [disableInput] using hst
      | ok v =>
          rw [renderChat_stack]
          simpa [disableInput] using hst
  · unfold profileActionClick
    dsimp only
    rcases hres : apiFetch env
        (if action = "add_friend" then friendRequestReq targetUid
         else actionReq action targetUid) s with ⟨res, s2⟩
    have hst := apiFetch_stack env
        (if action = "add_friend" then friendRequestReq targetUid
         else actionReq action targetUid) s
    rw [hres] at hst
    cases res with
    | error e => exact hst
    | ok v =>
        rw [renderProfile_stack]
        simpa [showAlert] using hst
  · unfold requestActionClick
    rcases hres : apiFetch env (actionReq action2 uid2) s with ⟨res, s2⟩
    have hst := apiFetch_stack env (actionReq action2 uid2) s
    rw [hres] at hst
    cases res with
    | error e => exact hst
    | ok v =>
        rw [renderRequests_stack]
        simpa [showAlert] using hst

/-- C10: a send click with empty or whitespace-only input text is a
complete no-op: no request, no disabling, no re-render — the state is
unchanged. -/
theorem sendClick_noop_C10 (env : Env) (uid t : String) (s : AppState)
    (h : jsTrim t = "") : sendClick env uid t s = s := by
  unfold sendClick
  dsimp only
  rw [if_pos h]

/-- Witness for C10 at a whitespace-only input. -/
theorem sendClick_noop_C10_witness :
    jsTrim "   " = "" ∧
    sendClick sampleEnv "22222222" "   " sampleChatState = sampleChatState :=
  ⟨by decide, sendClick_noop_C10 sampleEnv "22222222" "   " sampleChatState (by decide)⟩

end App
